import Mathlib

/-!
Verification of the NongPlatoo.Ai tourism-chatbot backend.

This file gives a shallow embedding of the query-understanding and retrieval
pipeline of the repository (backend/text_utils.py, backend/constants.py,
backend/db.py, backend/chat.py) and proves or refutes the frozen claims about
it.  Python strings are modelled as `List Char`; SQL rows of the `places`
table as a `Place` structure; the outcome of a database access as
`Except DBErr` (a raised SQLAlchemyError becomes the `.error` case); float
scores as `ℚ`.  Python's stable `sorted` and SQL `ORDER BY` are modelled with
`List.insertionSort`, which has the same stability (earlier elements stay
first among ties).
-/

/-- Python strings are modelled as lists of characters. -/
abbrev Str := List Char

/-- ASCII lower-casing of one character.  Python's `str.lower()` restricted to
the character repertoire this codebase uses (ASCII letters plus Thai, which
`lower()` leaves unchanged). -/
def asciiLower (c : Char) : Char :=
  if 'A' ≤ c ∧ c ≤ 'Z' then Char.ofNat (c.toNat + 32) else c

/-- Python `s.lower()`. -/
def lowerStr (s : Str) : Str := s.map asciiLower

/-- Python's substring test `needle in hay`. -/
def isSub (needle : Str) : Str → Bool
  | [] => needle.isEmpty
  | c :: t => needle.isPrefixOf (c :: t) || isSub needle t

/-- Whitespace characters removed by Python `str.strip()` / matched by `\s`. -/
def isPySpace (c : Char) : Bool :=
  c = ' ' || c = '\t' || c = '\n' || c = '\r' || c = '\x0b' || c = '\x0c'

/-- Python `str.strip()`. -/
def pyStrip (s : Str) : Str :=
  ((s.dropWhile isPySpace).reverse.dropWhile isPySpace).reverse

/-- Helper for `normalize_whitespace`: collapse whitespace runs to a single
space; the flag records whether the previous character was whitespace. -/
def collapseWsAux : Bool → Str → Str
  | _, [] => []
  | prevSpace, c :: t =>
    if isPySpace c then
      if prevSpace then collapseWsAux true t
      else ' ' :: collapseWsAux true t
    else c :: collapseWsAux false t

/-- `text_utils.normalize_whitespace`: empty (falsy) input gives "", otherwise
strip and collapse every whitespace run to one space. -/
def normalize_whitespace (s : Str) : Str :=
  if s = [] then [] else collapseWsAux false (pyStrip s)

/-- `constants.DEFAULT_LANGUAGE`. -/
def DEFAULT_LANGUAGE : Str := "th".data

/-- Characters of the Thai Unicode block, `constants.THAI_CHAR_MIN_CODE` to
`THAI_CHAR_MAX_CODE` (U+0E00 to U+0E7F). -/
def isThaiChar (c : Char) : Bool := 0x0E00 ≤ c.toNat && c.toNat ≤ 0x0E7F

/-- `text_utils.detect_language`: empty (falsy) text gives the configured
default; otherwise "th" when the Thai-character count is positive, else
"en". -/
def detect_language (s : Str) : Str :=
  if s = [] then DEFAULT_LANGUAGE
  else if 0 < s.countP (fun c => isThaiChar c) then "th".data
  else "en".data

/-- Claim C10: `detect_language` returns "th" whenever the string contains a
character of the Thai block U+0E00-U+0E7F, returns "en" for every non-empty
string containing none, and returns the default "th" for the empty string;
hence any mixed Thai/English text is detected as Thai. -/
theorem C10_detect_language (s : Str) :
    ((∃ c ∈ s, isThaiChar c = true) → detect_language s = "th".data) ∧
    (s ≠ [] → (∀ c ∈ s, isThaiChar c = false) → detect_language s = "en".data) ∧
    detect_language [] = "th".data := by
  refine ⟨?_, ?_, rfl⟩
  · rintro ⟨c, hc, hthai⟩
    have hne : s ≠ [] := by rintro rfl; exact absurd hc (List.not_mem_nil c)
    have hpos : 0 < s.countP (fun c => isThaiChar c) :=
      List.countP_pos_iff.mpr ⟨c, hc, hthai⟩
    simp [detect_language, hne, hpos]
  · intro hne hall
    have hzero : s.countP (fun c => isThaiChar c) = 0 :=
      List.countP_eq_zero.mpr (by intro c hc; simp [hall c hc])
    simp [detect_language, hne, hzero]

/-- Witness for C10 at concrete inputs: "สวัสดี hello" is detected as Thai,
"hello" as English. -/
theorem C10_witness :
    detect_language "สวัสดี hello".data = "th".data ∧
    detect_language "hello".data = "en".data :=
  ⟨(C10_detect_language _).1 ⟨'ส', by decide, by decide⟩,
   (C10_detect_language _).2.1 (by decide) (by decide)⟩

/-- A row of the `places` table (db.py, class Place).  Only the columns used
by the search functions are modelled; `to_dict` passes `attraction_type`,
`category`, `name` and the coordinates through unchanged, so result dicts are
identified with rows.  Nullable columns are `Option`; coordinates are exact
rationals. -/
structure Place where
  id : Nat
  name : Str
  category : Option Str
  description : Option Str
  address : Option Str
  attraction_type : Option Str
  latitude : Option ℚ
  longitude : Option ℚ
deriving DecidableEq

/-- A database-layer failure: SQLAlchemy raises `SQLAlchemyError` and the
search helpers catch exactly that. -/
inductive DBErr where
  | sqlError (msg : Str)

/-- SQL `col ILIKE '%keyword%'`: case-insensitive substring containment. -/
def ilikeContains (kw field : Str) : Bool := isSub (lowerStr kw) (lowerStr field)

/-- `ILIKE` on a nullable column: NULL matches nothing. -/
def ilikeContainsOpt (kw : Str) : Option Str → Bool
  | none => false
  | some s => ilikeContains kw s

/-- The keyword disjunction of `search_places` (db.py lines 636-642): keyword
matches name, category, address, description or attraction_type. -/
def placeMatchesKeyword (kw : Str) (p : Place) : Bool :=
  ilikeContains kw p.name || ilikeContainsOpt kw p.category ||
  ilikeContainsOpt kw p.address || ilikeContainsOpt kw p.description ||
  ilikeContainsOpt kw p.attraction_type

/-- SQL `ORDER BY Place.id` (primary key, hence a stable ascending sort). -/
def sortById (rows : List Place) : List Place :=
  List.insertionSort (fun a b => a.id ≤ b.id) rows

/-- `db.search_places(keyword, limit, attraction_type)` (db.py lines
604-656).  The WHERE clause contains only the keyword disjunction; the
`attraction_type` argument is accepted but never added to the statement.  On
a database error the function returns the empty list.  The final
`results[:limit]` slice of the source is the second `take`. -/
def search_places (db : Except DBErr (List Place)) (keyword : Str)
    (limit : Nat) (attraction_type : Option Str) : List Place :=
  match db with
  | .error _ => []
  | .ok table =>
      ((sortById (table.filter (fun p => placeMatchesKeyword keyword p))).take
        limit).take limit

/-- `db.search_main_attractions(keyword, limit)` (db.py lines 659-679):
delegates to `search_places` with attraction_type "main_attraction". -/
def search_main_attractions (db : Except DBErr (List Place)) (keyword : Str)
    (limit : Nat) : List Place :=
  search_places db keyword limit (some "main_attraction".data)

/-- Codepoint-lexicographic comparison of strings, modelling the SQL
`ORDER BY Place.name ASC` collation. -/
def strLe (a b : Str) : Bool :=
  match a, b with
  | [], _ => true
  | _ :: _, [] => false
  | c :: ta, d :: tb =>
      if c.toNat < d.toNat then true
      else if d.toNat < c.toNat then false
      else strLe ta tb

/-- `db.get_attractions_by_type(attraction_type, limit)` (db.py lines
682-718): category-column-only ILIKE filter, ordered by name, limited; empty
list on database error. -/
def get_attractions_by_type (db : Except DBErr (List Place))
    (attraction_type : Str) (limit : Nat) : List Place :=
  match db with
  | .error _ => []
  | .ok table =>
      ((List.insertionSort (fun a b => strLe a.name b.name = true)
        (table.filter (fun p => ilikeContainsOpt attraction_type p.category))).take
          limit).take limit

/-- Python `round(x, 2)` on the model's exact rationals: round to the nearest
multiple of 1/100 (the source rounds a binary float half-to-even; the claims
do not depend on the tie rule). -/
def round2 (q : ℚ) : ℚ := (round (q * 100) : ℤ) / 100

/-- The SQL haversine expression of db.py lines 751-759 evaluated on one row:
`hav` abstracts `6371*acos(cos(radians(clat))*cos(radians(lat))*
cos(radians(lng)-radians(clng)) + sin(radians(clat))*sin(radians(lat)))`.
`haversine_center_zero` below pins its value when the row coordinates equal
the center. -/
def nearDistance (hav : ℚ → ℚ → ℚ → ℚ → ℚ) (clat clng : ℚ) (p : Place) : ℚ :=
  hav clat clng (p.latitude.getD 0) (p.longitude.getD 0)

/-- `db.search_places_near_location(keyword, center_lat, center_lng,
radius_km, limit)` (db.py lines 721-801).  Rows must have non-null
coordinates, match the keyword and lie within `radius_km`; they are ordered
by distance ascending and truncated; each result carries `_distance_km`,
which the source sets with `round(float(distance), 2) if distance else None`
- so a row at distance exactly 0 gets None (Python truthiness of 0.0). -/
def search_places_near_location (hav : ℚ → ℚ → ℚ → ℚ → ℚ)
    (db : Except DBErr (List Place)) (keyword : Str)
    (center_lat center_lng radius_km : ℚ) (limit : Nat) :
    List (Place × Option ℚ) :=
  match db with
  | .error _ => []
  | .ok table =>
      ((List.insertionSort
          (fun a b => nearDistance hav center_lat center_lng a ≤
            nearDistance hav center_lat center_lng b)
          (table.filter (fun p =>
            p.latitude.isSome && p.longitude.isSome &&
            placeMatchesKeyword keyword p &&
            decide (nearDistance hav center_lat center_lng p ≤ radius_km)))).take
        limit).map
        (fun p => (p, if nearDistance hav center_lat center_lng p = 0 then none
                      else some (round2 (nearDistance hav center_lat center_lng p))))

/-- One value of the `scores` dict built by `search_places_hybrid` (db.py
lines 1016-1040): the merged place record reduced to the fields the claim
speaks about - the place id and the three score keys.  `combined_score` is 0
until the final pass writes it. -/
structure HybridEntry where
  pid : Nat
  semantic_score : ℚ
  keyword_score : ℚ
  combined_score : ℚ
deriving DecidableEq

/-- The `scores` dict: insertion-ordered association list with unique keys,
exactly Python dict semantics. -/
abbrev ScoreMap := List (Nat × HybridEntry)

/-- Python dict assignment `scores[k] = e`: overwrite in place when the key
exists, else append at the end. -/
def setEntry : ScoreMap → Nat → HybridEntry → ScoreMap
  | [], k, e => [(k, e)]
  | q :: t, k, e => if q.1 = k then (k, e) :: t else q :: setEntry t k e

/-- Python `k in scores`. -/
def hasKey (m : ScoreMap) (k : Nat) : Bool := m.any (fun q => q.1 = k)

/-- Python `scores[k]['keyword_score'] = 1.0` (in-place field update). -/
def setKeywordScoreOne (m : ScoreMap) (k : Nat) : ScoreMap :=
  m.map (fun q => if q.1 = k then (q.1, { q.2 with keyword_score := 1 }) else q)

/-- db.py lines 1019-1023: seed `scores` from the semantic results; each row
is (id, similarity_score) and gets semantic_score = similarity and
keyword_score = 0. -/
def addSemantic : List (Nat × ℚ) → ScoreMap → ScoreMap
  | [], m => m
  | r :: rest, m =>
      addSemantic rest (setEntry m r.1
        { pid := r.1, semantic_score := r.2, keyword_score := 0,
          combined_score := 0 })

/-- db.py lines 1026-1031: merge the keyword results; an id absent from
`scores` is inserted with semantic_score 0, then its keyword_score is set to
1.0 unconditionally. -/
def addKeyword : List Nat → ScoreMap → ScoreMap
  | [], m => m
  | i :: rest, m =>
      addKeyword rest (setKeywordScoreOne
        (if hasKey m i then m
         else setEntry m i
           { pid := i, semantic_score := 0, keyword_score := 0,
             combined_score := 0 }) i)

/-- db.py lines 1034-1040: write `combined_score = semantic_score *
(1 - keyword_weight) + keyword_score * keyword_weight` into every entry. -/
def computeCombined (w : ℚ) (m : ScoreMap) : ScoreMap :=
  m.map (fun q => (q.1,
    { q.2 with combined_score :=
        q.2.semantic_score * (1 - w) + q.2.keyword_score * w }))

/-- `db.search_places_hybrid(query, limit, keyword_weight)` (db.py lines
988-1049).  The two inputs are the rows returned by
`search_places_semantic(query, limit)` (as (id, similarity_score) pairs) and
by `search_places(query, limit)` (as ids) - the source fetches both with the
same `limit` (lines 1012-1013).  `scores.values()` keeps dict insertion
order; Python's `sorted(..., reverse=True)` is a stable descending sort,
modelled by `List.insertionSort` on the flipped comparison. -/
def search_places_hybrid (semanticResults : List (Nat × ℚ))
    (keywordResults : List Nat) (limit : Nat) (keyword_weight : ℚ) :
    List HybridEntry :=
  (List.insertionSort (fun a b => b.combined_score ≤ a.combined_score)
    ((computeCombined keyword_weight
      (addKeyword keywordResults (addSemantic semanticResults []))).map
        Prod.snd)).take limit

/-- Membership in the result of a dict assignment: the element is the
assigned pair or was already present. -/
theorem mem_of_setEntry {k : Nat} {e : HybridEntry} :
    ∀ {m : ScoreMap} {p : Nat × HybridEntry},
      p ∈ setEntry m k e → p = (k, e) ∨ p ∈ m := by
  intro m
  induction m with
  | nil =>
      intro p hp
      simp only [setEntry, List.mem_singleton] at hp
      exact Or.inl hp
  | cons q t ih =>
      intro p hp
      simp only [setEntry] at hp
      split at hp
      · rcases List.mem_cons.mp hp with h | h
        · exact Or.inl h
        · exact Or.inr (List.mem_cons_of_mem q h)
      · rcases List.mem_cons.mp hp with h | h
        · exact Or.inr (h ▸ List.mem_cons_self q t)
        · rcases ih h with h2 | h2
          · exact Or.inl h2
          · exact Or.inr (List.mem_cons_of_mem q h2)

/-- Every entry produced by the semantic seeding pass satisfies a predicate
that holds of the initial entries and of every inserted row. -/
theorem addSemantic_entries (P : Nat × HybridEntry → Prop) :
    ∀ (rows : List (Nat × ℚ)) (m : ScoreMap),
      (∀ p ∈ m, P p) →
      (∀ r ∈ rows, P (r.1,
        { pid := r.1, semantic_score := r.2, keyword_score := 0,
          combined_score := 0 })) →
      ∀ p ∈ addSemantic rows m, P p := by
  intro rows
  induction rows with
  | nil => intro m hm _ p hp; exact hm p hp
  | cons r rest ih =>
      intro m hm hrows p hp
      simp only [addSemantic] at hp
      refine ih _ ?_ (fun q hq => hrows q (List.mem_cons_of_mem r hq)) p hp
      intro q hq
      rcases mem_of_setEntry hq with h | h
      · exact h ▸ hrows r (List.mem_cons_self r rest)
      · exact hm q h

/-- Every entry produced by the keyword merging pass keeps key-pid agreement
and an id provenance, and afterwards has keyword_score 1 exactly on the
merged ids (elsewhere the score `K` it had before). -/
theorem addKeyword_entries (S : Nat → Prop) (F : List Nat) :
    ∀ (ids : List Nat) (K : Nat → ℚ) (m : ScoreMap),
      (∀ i ∈ ids, i ∈ F) →
      (∀ p ∈ m, p.2.pid = p.1 ∧ (S p.1 ∨ p.1 ∈ F) ∧
        (p.1 ∉ ids → p.2.keyword_score = K p.1)) →
      ∀ p ∈ addKeyword ids m,
        p.2.pid = p.1 ∧ (S p.1 ∨ p.1 ∈ F) ∧
        p.2.keyword_score = (if p.1 ∈ ids then 1 else K p.1) := by
  intro ids
  induction ids with
  | nil =>
      intro K m _ hm p hp
      obtain ⟨h1, h2, h3⟩ := hm p hp
      exact ⟨h1, h2, by simpa using h3 (by simp)⟩
  | cons i rest ih =>
      intro K m hF hm p hp
      simp only [addKeyword] at hp
      have hstep : ∀ q ∈ setKeywordScoreOne
          (if hasKey m i then m
           else setEntry m i
             { pid := i, semantic_score := 0, keyword_score := 0,
               combined_score := 0 }) i,
          q.2.pid = q.1 ∧ (S q.1 ∨ q.1 ∈ F) ∧
          (q.1 ∉ rest → q.2.keyword_score =
            (if q.1 = i then 1 else K q.1)) := by
        intro q hq
        obtain ⟨q0, hq0, rfl⟩ := List.mem_map.mp hq
        have hq0m : q0 = (i,
            { pid := i, semantic_score := 0, keyword_score := 0,
              combined_score := 0 }) ∨ q0 ∈ m := by
          by_cases hk : hasKey m i
          · rw [if_pos hk] at hq0
            exact Or.inr hq0
          · rw [if_neg hk] at hq0
            exact mem_of_setEntry hq0
        have hq0pid : q0.2.pid = q0.1 := by
          rcases hq0m with h | h
          · rw [h]
          · exact (hm q0 h).1
        have hq0orig : S q0.1 ∨ q0.1 ∈ F := by
          rcases hq0m with h | h
          · rw [h]
            exact Or.inr (hF i (List.mem_cons_self i rest))
          · exact (hm q0 h).2.1
        by_cases hqi : q0.1 = i
        · rw [if_pos hqi]
          refine ⟨hq0pid, hq0orig, fun _ => ?_⟩
          rw [if_pos hqi]
        · rw [if_neg hqi]
          have hq0mem : q0 ∈ m := by
            rcases hq0m with h | h
            · exact absurd (by rw [h]) hqi
            · exact h
          obtain ⟨h1, h2, h3⟩ := hm q0 hq0mem
          refine ⟨h1, h2, fun hnr => ?_⟩
          rw [if_neg hqi]
          refine h3 (fun hmem => ?_)
          rcases List.mem_cons.mp hmem with h | h
          · exact hqi h
          · exact hnr h
      have hres := ih (fun k => if k = i then 1 else K k) _
        (fun j hj => hF j (List.mem_cons_of_mem i hj)) hstep p hp
      obtain ⟨h1, h2, h3⟩ := hres
      have h4 : p.2.keyword_score =
          if p.1 ∈ rest then 1 else if p.1 = i then 1 else K p.1 := h3
      refine ⟨h1, h2, ?_⟩
      by_cases hri : p.1 ∈ rest
      · rw [if_pos hri] at h4
        rw [if_pos (List.mem_cons_of_mem i hri)]
        exact h4
      · rw [if_neg hri] at h4
        by_cases hpi : p.1 = i
        · rw [if_pos hpi] at h4
          rw [if_pos (show p.1 ∈ i :: rest by rw [hpi]; exact List.mem_cons_self i rest)]
          exact h4
        · rw [if_neg hpi] at h4
          rw [if_neg (fun hmem => (List.mem_cons.mp hmem).elim hpi hri)]
          exact h4

/-- Every entry of the fully built `scores` dict (after the combined-score
pass) has the provenance and score shape stated by the claim. -/
theorem hybrid_entry_shape (sem : List (Nat × ℚ)) (kw : List Nat) (w : ℚ) :
    ∀ e ∈ (computeCombined w (addKeyword kw (addSemantic sem []))).map
        Prod.snd,
      (e.pid ∈ sem.map Prod.fst ∨ e.pid ∈ kw) ∧
      e.combined_score = e.semantic_score * (1 - w) + e.keyword_score * w ∧
      e.keyword_score = (if e.pid ∈ kw then 1 else 0) := by
  intro e he
  obtain ⟨q, hq, rfl⟩ := List.mem_map.mp he
  simp only [computeCombined] at hq
  obtain ⟨q0, hq0, rfl⟩ := List.mem_map.mp hq
  have hbase : ∀ p ∈ addSemantic sem [],
      p.2.pid = p.1 ∧ (p.1 ∈ sem.map Prod.fst ∨ p.1 ∈ kw) ∧
      (p.1 ∉ kw → p.2.keyword_score = (fun _ => (0 : ℚ)) p.1) := by
    intro p hp
    have := addSemantic_entries
      (fun p => p.2.pid = p.1 ∧ (p.1 ∈ sem.map Prod.fst ∨ p.1 ∈ kw) ∧
        p.2.keyword_score = 0)
      sem [] (by simp)
      (fun r hr => ⟨rfl, Or.inl (List.mem_map.mpr ⟨r, hr, rfl⟩), rfl⟩) p hp
    exact ⟨this.1, this.2.1, fun _ => this.2.2⟩
  obtain ⟨hpid, horig, hkw⟩ :=
    addKeyword_entries (fun k => k ∈ sem.map Prod.fst) kw kw
      (fun _ => (0 : ℚ)) _ (fun i hi => hi) hbase q0 hq0
  refine ⟨?_, rfl, ?_⟩
  · simpa [hpid] using horig
  · simpa [hpid] using hkw

/-- Claim C3: `search_places_hybrid` returns at most `limit` results; every
result's id comes from the semantic result set or the keyword result set;
each result's combined_score is semantic_score*(1-keyword_weight) +
keyword_score*keyword_weight with keyword_score 1 exactly on keyword hits
and 0 otherwise; and the list is sorted by non-increasing combined_score. -/
theorem C3_hybrid_search (sem : List (Nat × ℚ)) (kw : List Nat)
    (limit : Nat) (w : ℚ) :
    (search_places_hybrid sem kw limit w).length ≤ limit ∧
    (∀ e ∈ search_places_hybrid sem kw limit w,
      (e.pid ∈ sem.map Prod.fst ∨ e.pid ∈ kw) ∧
      e.combined_score = e.semantic_score * (1 - w) + e.keyword_score * w ∧
      e.keyword_score = (if e.pid ∈ kw then 1 else 0)) ∧
    (search_places_hybrid sem kw limit w).Pairwise
      (fun a b => b.combined_score ≤ a.combined_score) := by
  refine ⟨List.length_take_le _ _, ?_, ?_⟩
  · intro e he
    have h1 : e ∈ List.insertionSort
        (fun a b => b.combined_score ≤ a.combined_score)
        ((computeCombined w (addKeyword kw (addSemantic sem []))).map
          Prod.snd) := List.mem_of_mem_take he
    have h2 := (List.perm_insertionSort _ _).mem_iff.mp h1
    exact hybrid_entry_shape sem kw w e h2
  · have htotal : IsTotal HybridEntry
        (fun a b => b.combined_score ≤ a.combined_score) :=
      ⟨fun a b => le_total b.combined_score a.combined_score⟩
    have htrans : IsTrans HybridEntry
        (fun a b => b.combined_score ≤ a.combined_score) :=
      ⟨fun _ _ _ hab hbc => le_trans hbc hab⟩
    exact List.Pairwise.sublist (List.take_sublist _ _)
      (@List.sorted_insertionSort _ _ _ htotal htrans _)

/-- The semantic-only entry of the C3 witness run: id 1, similarity 1/2, not
a keyword hit. -/
def hybridWitnessEntry : HybridEntry :=
  { pid := 1, semantic_score := 1/2, keyword_score := 0,
    combined_score := 1/2 * (1 - 3/10) + 0 * (3/10) }

/-- Witness for C3 at a concrete input: hybrid search over semantic results
[(1, 1/2)] and keyword results [2] with limit 3 and the default
keyword_weight 3/10 returns the id-1 entry with keyword_score 0 and the
claimed combined score. -/
theorem C3_witness :
    (hybridWitnessEntry.pid ∈ [((1 : Nat), (1/2 : ℚ))].map Prod.fst ∨
      hybridWitnessEntry.pid ∈ [2]) ∧
    hybridWitnessEntry.combined_score =
      hybridWitnessEntry.semantic_score * (1 - 3/10) +
        hybridWitnessEntry.keyword_score * (3/10) ∧
    hybridWitnessEntry.keyword_score =
      (if hybridWitnessEntry.pid ∈ [2] then 1 else 0) :=
  (C3_hybrid_search [(1, 1/2)] [2] 3 (3/10)).2.1 hybridWitnessEntry
    (by with_unfolding_all decide)

/-- A market row whose name matches the keyword "ตลาด" but whose
attraction_type is not "main_attraction". -/
def marketPlace : Place :=
  { id := 1, name := "ตลาดน้ำอัมพวา".data, category := some ("ตลาดน้ำ".data),
    description := none, address := none,
    attraction_type := some ("market".data), latitude := none,
    longitude := none }

/-- Claim C1 is violated by the code: `search_places` accepts the
`attraction_type` argument but never applies it to the WHERE clause (db.py
lines 633-646), contradicting its own docstring ("if provided, ONLY return
places with this exact attraction_type").  At the failing input - a table
holding one market row matching keyword "ตลาด" - both
`search_places(.., attraction_type="main_attraction")` and
`search_main_attractions` return that row even though its attraction_type is
"market". -/
theorem C1_attraction_type_filter_ignored :
    search_places (.ok [marketPlace]) "ตลาด".data 5
        (some "main_attraction".data) = [marketPlace] ∧
    search_main_attractions (.ok [marketPlace]) "ตลาด".data 5 = [marketPlace] ∧
    marketPlace.attraction_type ≠ some "main_attraction".data := by
  refine ⟨by decide, by decide, by decide⟩

/-- Character class kept by `_normalize_name_token`'s regex
`[^0-9a-zA-Z฀-๿]+` substitution: digits, ASCII letters and the
Thai block survive. -/
def isNameTokenChar (c : Char) : Bool :=
  ('0' ≤ c && c ≤ '9') || ('a' ≤ c && c ≤ 'z') || ('A' ≤ c && c ≤ 'Z') ||
  (0x0E00 ≤ c.toNat && c.toNat ≤ 0x0E7F)

/-- chat.py `_normalize_name_token` (707-711): falsy input gives "",
otherwise strip, lowercase and drop every character outside the kept
class. -/
def normalize_name_token (s : Str) : Str :=
  if s = [] then [] else (lowerStr (pyStrip s)).filter isNameTokenChar

/-- One entry of `self.travel_data` reduced to the four name fields scanned
by `_classify_intent` (chat.py 192-198), in scan order. -/
structure TDEntry where
  place_name : Option Str
  name : Option Str
  name_th : Option Str
  name_en : Option Str
deriving DecidableEq

/-- The name fields of a travel-data entry in the order the source reads
them. -/
def entryNames (e : TDEntry) : List (Option Str) :=
  [e.place_name, e.name, e.name_th, e.name_en]

/-- chat.py 199-205: a name counts as matched when it is truthy, at least 3
characters long, its normalized token is non-empty and that token is a
substring of the normalized query. -/
def nameMatchesQuery (normalized : Str) : Option Str → Bool
  | none => false
  | some s =>
      !s.isEmpty && decide (3 ≤ s.length) &&
      (!(normalize_name_token s).isEmpty &&
        isSub (normalize_name_token s) (normalize_name_token normalized))

/-- chat.py 190-207: scan the first 50 travel-data entries for a place-name
match against the normalized query (the source breaks on the first hit; only
the boolean outcome matters here). -/
def specificPlaceMatch (travelData : List TDEntry) (normalized : Str) : Bool :=
  (travelData.take 50).any (fun e =>
    (entryNames e).any (fun n => nameMatchesQuery normalized n))

/-- chat.py 175-180: the fixed "specific intent" indicator substrings. -/
def specific_indicators : List Str :=
  [ "อยู่ที่ไหน".data, "where is".data, "อยู่ตรงไหน".data, "ที่อยู่".data,
    "เกี่ยวกับ".data, "about".data, "tell me about".data, "บอกเกี่ยวกับ".data,
    "คือ".data, "คืออะไร".data, "what is".data, "เป็นอย่างไร".data,
    "ไปยังไง".data, "how to get".data, "วิธีไป".data, "เดินทางไป".data ]

/-- chat.py 183-188: the fixed "general intent" indicator substrings. -/
def general_indicators : List Str :=
  [ "แนะนำ".data, "recommend".data, "suggestion".data, "มีอะไร".data,
    "what".data, "บ้าง".data, "some".data, "ไหนดี".data,
    "where should".data, "ควรไป".data, "อยากไป".data, "want to visit".data,
    "หา".data, "find".data, "looking for".data, "มี".data, "are there".data,
    "any".data, "list".data ]

/-- `any(ind in normalized for ind in indicators)`. -/
def hasIndicator (inds : List Str) (normalized : Str) : Bool :=
  inds.any (fun ind => isSub ind normalized)

/-- chat.py `_classify_intent` (162-226) reduced to its returned
`intent_type`: the query is stripped (`clean_question`) and lowercased
(`normalized`); the intent is "specific" iff a place name matched or a
specific indicator occurs without any general indicator. -/
def classify_intent (travelData : List TDEntry) (query : Str) : Str :=
  if specificPlaceMatch travelData (lowerStr (pyStrip query)) ||
      (hasIndicator specific_indicators (lowerStr (pyStrip query)) &&
        !hasIndicator general_indicators (lowerStr (pyStrip query)))
  then "specific".data
  else "general".data

/-- The boolean condition of `classify_intent` unfolded to a proposition. -/
theorem classify_intent_eq_specific_iff (td : List TDEntry) (q : Str) :
    classify_intent td q = "specific".data ↔
      (specificPlaceMatch td (lowerStr (pyStrip q)) = true ∨
       (hasIndicator specific_indicators (lowerStr (pyStrip q)) = true ∧
        hasIndicator general_indicators (lowerStr (pyStrip q)) = false)) := by
  unfold classify_intent
  by_cases hb : (specificPlaceMatch td (lowerStr (pyStrip q)) ||
      (hasIndicator specific_indicators (lowerStr (pyStrip q)) &&
        !hasIndicator general_indicators (lowerStr (pyStrip q)))) = true
  · rw [if_pos hb]
    refine iff_of_true rfl ?_
    simpa [Bool.or_eq_true, Bool.and_eq_true, Bool.not_eq_true'] using hb
  · rw [if_neg hb]
    refine iff_of_false (by decide) ?_
    simpa [Bool.or_eq_true, Bool.and_eq_true, Bool.not_eq_true'] using hb

/-- Claim C5: the intent classifier returns "specific" iff a known place
name from the first 50 stored entries matches the normalized query, or some
specific indicator substring occurs in the lowercased query while no general
indicator does; in every other case (including both indicator kinds present
without a place-name match) the result is "general". -/
theorem C5_classify_intent (td : List TDEntry) (q : Str) :
    (classify_intent td q = "specific".data ↔
      ((∃ e ∈ td.take 50, ∃ n ∈ entryNames e,
          nameMatchesQuery (lowerStr (pyStrip q)) n = true) ∨
       ((∃ i ∈ specific_indicators,
            isSub i (lowerStr (pyStrip q)) = true) ∧
        ¬ (∃ i ∈ general_indicators,
            isSub i (lowerStr (pyStrip q)) = true)))) ∧
    (classify_intent td q = "specific".data ∨
      classify_intent td q = "general".data) := by
  constructor
  · rw [classify_intent_eq_specific_iff]
    apply or_congr
    · simp [specificPlaceMatch, List.any_eq_true]
    · apply and_congr
      · simp [hasIndicator, List.any_eq_true]
      · rw [Bool.eq_false_iff]
        apply not_congr
        simp [hasIndicator, List.any_eq_true]
  · unfold classify_intent
    split
    · exact Or.inl rfl
    · exact Or.inr rfl

/-- Witness for C5 at a concrete input: with no stored entries, the query
"วัดบางกุ้ง อยู่ที่ไหน" carries the specific indicator "อยู่ที่ไหน" and no
general indicator, so the classifier answers "specific". -/
theorem C5_witness :
    classify_intent [] "วัดบางกุ้ง อยู่ที่ไหน".data = "specific".data :=
  (C5_classify_intent [] _).1.mpr
    (Or.inr ⟨⟨"อยู่ที่ไหน".data, by decide, by decide⟩, by decide⟩)

/-- chat.py `_detect_category_filter`'s mapping table (953-964), in source
order: Python dicts iterate in insertion order, so "ร้านอาหาร" (with its
keyword "ร้าน") is tried before "คาเฟ่". -/
def category_mappings : List (Str × List Str) :=
  [ ("วัด".data,
      [ "วัด".data, "temple".data, "วัดวา".data, "ศาสนสถาน".data,
        "สถานที่ศักดิ์สิทธิ์".data, "วัดโบราณ".data ]),
    ("ร้านอาหาร".data,
      [ "ร้านอาหาร".data, "restaurant".data, "ภัตตาคาร".data, "อาหาร".data,
        "ร้าน".data, "กิน".data ]),
    ("คาเฟ่".data,
      [ "คาเฟ่".data, "cafe".data, "coffee".data, "กาแฟ".data,
        "ร้านกาแฟ".data, "คอฟฟี่".data ]),
    ("สถานที่ท่องเที่ยว".data,
      [ "สถานที่ท่องเที่ยว".data, "tourist attraction".data, "ที่เที่ยว".data,
        "attraction".data, "แหล่งท่องเที่ยว".data ]),
    ("โรงแรม".data, [ "โรงแรม".data, "hotel".data, "โฮเทล".data ]),
    ("รีสอร์ท".data, [ "รีสอร์ท".data, "resort".data ]),
    ("ที่พัก".data,
      [ "ที่พัก".data, "accommodation".data, "ที่นอน".data, "ที่อยู่".data ]),
    ("ตลาดน้ำ".data, [ "ตลาดน้ำ".data, "floating market".data ]),
    ("ตลาด".data, [ "ตลาด".data, "market".data, "ตลาดสด".data ]),
    ("ร้านค้า".data, [ "ร้านค้า".data, "shop".data, "ร้าน".data ]) ]

/-- chat.py `_detect_category_filter` (940-971): lowercase the query, walk
the mapping in order and return the first category one of whose keywords
occurs in the query; None when nothing matches. -/
def detect_category_filter (query : Str) : Option Str :=
  (category_mappings.find? (fun cm =>
    cm.2.any (fun kw => isSub kw (lowerStr query)))).map Prod.fst

/-- chat.py `_is_main_attractions_query`'s indicator lists (915-932), Thai
then English. -/
def main_attraction_indicators : List Str :=
  [ "สถานที่ท่องเที่ยว".data, "ที่เที่ยวหลัก".data, "ที่เที่ยวสำคัญ".data,
    "แหล่งท่องเที่ยว".data, "จุดท่องเที่ยว".data, "อัตราคะแนนสูง".data,
    "มีชื่อเสียง".data, "ดังที่สุด".data, "หลัก".data,
    "main attractions".data, "primary attractions".data,
    "major attractions".data, "top attractions".data,
    "best attractions".data, "famous places".data, "must see".data,
    "must visit".data, "landmark".data ]

/-- chat.py `_is_main_attractions_query` (903-938). -/
def is_main_attractions_query (query : Str) : Bool :=
  main_attraction_indicators.any (fun ind => isSub ind (lowerStr query))

/-- Which search the primary branch of `_match_travel_data` performs. -/
inductive RetrievalCall where
  | exactPlace
  | cachedResults
  | mainAttractions (keyword : Str)
  | categoryBrowse (category : Str)
  | hybridSearch (query : Str)
deriving DecidableEq

/-- The primary-search dispatch of `_match_travel_data` (chat.py 1090-1181).
External effects are parameters: `hybridNames` holds the place names
returned by the preliminary `search_places_hybrid(query, limit*2)` call used
for exact-name matching (1109-1117), and `cacheHit` tells whether the
query-result cache already holds this key (1131).  The dispatch: exact
name matches win; else a cache hit; else `search_main_attractions`; else
`get_attractions_by_type(category)` when a category was detected; else
hybrid search. -/
def match_travel_data_primary (query : Str) (hybridNames : List Str)
    (cacheHit : Bool) : RetrievalCall :=
  if ((if (match detect_category_filter query with
            | none => false
            | some c => decide ((pyStrip (lowerStr query)).length ≤ c.length + 2)) ||
          !(decide (3 ≤ (pyStrip (lowerStr query)).length))
        then ([] : List Str)
        else hybridNames.filter (fun nm =>
          !(lowerStr nm).isEmpty &&
          (isSub (lowerStr nm) (pyStrip (lowerStr query)) ||
            isSub (pyStrip (lowerStr query)) (lowerStr nm) ||
            lowerStr nm = pyStrip (lowerStr query)))) ≠ [])
  then .exactPlace
  else if cacheHit then .cachedResults
  else if is_main_attractions_query query then .mainAttractions query
  else
    match detect_category_filter query with
    | some c => .categoryBrowse c
    | none => .hybridSearch query

/-- Counterexample to claim C4 as stated: for the query "แนะนำร้านกาแฟ" the
category detector does NOT return "คาเฟ่": the mapping entry "ร้านอาหาร"
comes first in the table and its keyword "ร้าน" occurs in the query
("แนะนำ-ร้าน-กาแฟ"), so the first matching category is "ร้านอาหาร". -/
theorem C4_counterexample :
    detect_category_filter "แนะนำร้านกาแฟ".data = some ("ร้านอาหาร".data) ∧
    detect_category_filter "แนะนำร้านกาแฟ".data ≠ some ("คาเฟ่".data) := by
  refine ⟨by decide, by decide⟩

/-- Claim C4 as amended: for "แนะนำร้านกาแฟ" the detector returns
"ร้านอาหาร" (the first matching category: its keyword "ร้าน" is a substring
of the query and the "ร้านอาหาร" entry precedes "คาเฟ่" in the fixed
mapping), the query is not a main-attractions query, and - when the
exact-name prefilter finds nothing and the query cache misses - the
retrieval path invokes `get_attractions_by_type("ร้านอาหาร", limit)` rather
than any other category or search kind. -/
theorem C4_cafe_query_amended :
    detect_category_filter "แนะนำร้านกาแฟ".data = some ("ร้านอาหาร".data) ∧
    is_main_attractions_query "แนะนำร้านกาแฟ".data = false ∧
    match_travel_data_primary "แนะนำร้านกาแฟ".data [] false =
      .categoryBrowse ("ร้านอาหาร".data) := by
  refine ⟨by decide, by decide, by decide⟩

/-- `constants.DEFAULT_DISPLAY_LIMIT`. -/
def DEFAULT_DISPLAY_LIMIT : Nat := 6

/-- A structured-data entry as `_trim_structured_results` sees it: the
optional "id" value and the slug `_entry_identifier` would compute from the
entry's names when the id is falsy. -/
structure SDEntry where
  id : Option Str
  slug : Str
deriving DecidableEq

/-- chat.py 1420: `ident = entry.get("id") or self._entry_identifier(entry)`
- a falsy id (absent or empty) falls back to the slug. -/
def entryIdent (e : SDEntry) : Str :=
  match e.id with
  | some i => if i.isEmpty then e.slug else i
  | none => e.slug

/-- The dedup-and-cap loop of `_trim_structured_results` (chat.py
1417-1427): skip entries whose identifier was seen, keep the rest, stop once
`max_count` entries are kept (`cnt` counts entries already kept). -/
def trimLoop (maxCount : Nat) : List SDEntry → List Str → Nat → List SDEntry
  | [], _, _ => []
  | e :: t, seen, cnt =>
      if entryIdent e ∈ seen then trimLoop maxCount t seen cnt
      else if maxCount ≤ cnt + 1 then [e]
      else e :: trimLoop maxCount t (entryIdent e :: seen) (cnt + 1)

/-- chat.py `_trim_structured_results` (1398-1427): empty input gives [];
query_type "specific" caps at `min(limit, 3)` (3 when no limit); any other
query_type caps at `max(limit or (display_limit or 6), 4)`. -/
def trim_structured_results (entries : List SDEntry) (limit : Option Nat)
    (query_type : Option Str) (display_limit : Nat) : List SDEntry :=
  if entries = [] then []
  else
    trimLoop
      (if query_type = some ("specific".data) then
        match limit with
        | some l => min l 3
        | none => 3
      else
        Nat.max
          (match limit with
            | some l => l
            | none => if display_limit = 0 then 6 else display_limit) 4)
      entries [] 0

/-- The trim loop keeps at most `maxCount - cnt` entries once `cnt` slots
are used. -/
theorem trimLoop_length (maxCount : Nat) :
    ∀ (l : List SDEntry) (seen : List Str) (cnt : Nat), cnt < maxCount →
      (trimLoop maxCount l seen cnt).length ≤ maxCount - cnt := by
  intro l
  induction l with
  | nil => intro seen cnt h; simp [trimLoop]
  | cons e t ih =>
      intro seen cnt h
      simp only [trimLoop]
      by_cases hseen : entryIdent e ∈ seen
      · rw [if_pos hseen]
        exact ih seen cnt h
      · rw [if_neg hseen]
        by_cases hstop : maxCount ≤ cnt + 1
        · rw [if_pos hstop]
          simp only [List.length_singleton]
          omega
        · rw [if_neg hstop]
          simp only [List.length_cons]
          have := ih (entryIdent e :: seen) (cnt + 1) (by omega)
          omega

/-- The trim loop returns a subsequence of its input (original order
preserved). -/
theorem trimLoop_sublist (maxCount : Nat) :
    ∀ (l : List SDEntry) (seen : List Str) (cnt : Nat),
      List.Sublist (trimLoop maxCount l seen cnt) l := by
  intro l
  induction l with
  | nil => intro seen cnt; simp [trimLoop]
  | cons e t ih =>
      intro seen cnt
      simp only [trimLoop]
      by_cases hseen : entryIdent e ∈ seen
      · rw [if_pos hseen]
        exact (ih seen cnt).cons e
      · rw [if_neg hseen]
        by_cases hstop : maxCount ≤ cnt + 1
        · rw [if_pos hstop]
          exact (List.nil_sublist t).cons₂ e
        · rw [if_neg hstop]
          exact (ih (entryIdent e :: seen) (cnt + 1)).cons₂ e

/-- The trim loop never returns an identifier from `seen` and no two of its
results share an identifier. -/
theorem trimLoop_nodup (maxCount : Nat) :
    ∀ (l : List SDEntry) (seen : List Str) (cnt : Nat),
      (∀ e ∈ trimLoop maxCount l seen cnt, entryIdent e ∉ seen) ∧
      (trimLoop maxCount l seen cnt).Pairwise
        (fun a b => entryIdent a ≠ entryIdent b) := by
  intro l
  induction l with
  | nil => intro seen cnt; simp [trimLoop]
  | cons e t ih =>
      intro seen cnt
      simp only [trimLoop]
      by_cases hseen : entryIdent e ∈ seen
      · rw [if_pos hseen]
        exact ih seen cnt
      · rw [if_neg hseen]
        by_cases hstop : maxCount ≤ cnt + 1
        · rw [if_pos hstop]
          constructor
          · intro x hx
            rw [List.mem_singleton.mp hx]
            exact hseen
          · exact List.pairwise_singleton _ _
        · rw [if_neg hstop]
          obtain ⟨hmem, hpw⟩ := ih (entryIdent e :: seen) (cnt + 1)
          constructor
          · intro x hx
            rcases List.mem_cons.mp hx with h | h
            · rw [h]; exact hseen
            · exact fun hc => hmem x h (List.mem_cons_of_mem _ hc)
          · refine List.pairwise_cons.mpr ⟨?_, hpw⟩
            intro b hb heq
            exact hmem b hb (heq ▸ List.mem_cons_self _ _)

/-- Claim C8 (with "no explicit limit" read for both modes, as stated):
trimming with query_type "specific" and no limit returns at most 3 entries;
trimming with any other query_type and no limit returns at most
`max(display_limit or 6, 4)` entries - 6 with the default display limit; in
both cases no two returned entries share an identifier and the kept entries
appear in their original order (subsequence of the input). -/
theorem C8_trim_structured_results (entries : List SDEntry) (dl : Nat)
    (qt : Option Str) (hqt : qt ≠ some ("specific".data)) :
    ((trim_structured_results entries none (some ("specific".data)) dl).length ≤ 3 ∧
     List.Sublist (trim_structured_results entries none (some ("specific".data)) dl) entries ∧
     (trim_structured_results entries none (some ("specific".data)) dl).Pairwise
       (fun a b => entryIdent a ≠ entryIdent b)) ∧
    ((trim_structured_results entries none qt dl).length ≤
        Nat.max (if dl = 0 then 6 else dl) 4 ∧
     (trim_structured_results entries none qt DEFAULT_DISPLAY_LIMIT).length ≤ 6 ∧
     List.Sublist (trim_structured_results entries none qt dl) entries ∧
     (trim_structured_results entries none qt dl).Pairwise
       (fun a b => entryIdent a ≠ entryIdent b)) := by
  constructor
  · unfold trim_structured_results
    by_cases hent : entries = []
    · rw [if_pos hent, hent]
      exact ⟨by simp, List.nil_sublist _, List.Pairwise.nil⟩
    · rw [if_neg hent, if_pos rfl]
      refine ⟨?_, trimLoop_sublist _ _ _ _, (trimLoop_nodup _ _ _ _).2⟩
      simpa using trimLoop_length 3 entries [] 0 (by omega)
  · unfold trim_structured_results
    by_cases hent : entries = []
    · rw [if_pos hent, if_pos hent, hent]
      exact ⟨by simp, by simp, List.nil_sublist _, List.Pairwise.nil⟩
    · rw [if_neg hent, if_neg hent, if_neg hqt, if_neg hqt]
      refine ⟨?_, ?_, trimLoop_sublist _ _ _ _, (trimLoop_nodup _ _ _ _).2⟩
      · simpa using trimLoop_length (Nat.max (if dl = 0 then 6 else dl) 4)
          entries [] 0
          (lt_of_lt_of_le (by omega) (Nat.le_max_right (if dl = 0 then 6 else dl) 4))
      · have := trimLoop_length (Nat.max
          (if DEFAULT_DISPLAY_LIMIT = 0 then 6 else DEFAULT_DISPLAY_LIMIT) 4)
          entries [] 0 (by simp [DEFAULT_DISPLAY_LIMIT])
        simpa [DEFAULT_DISPLAY_LIMIT] using this

/-- Three entries for the C8 witness run: two share the identifier "a". -/
def sdA : SDEntry := { id := some ("a".data), slug := "slug-a".data }

/-- Second witness entry: empty (falsy) id, so the slug is the identifier. -/
def sdB : SDEntry := { id := some [], slug := "slug-b".data }

/-- Third witness entry: duplicate identifier "a". -/
def sdA2 : SDEntry := { id := some ("a".data), slug := "slug-c".data }

/-- Witness for C8 at a concrete input: a "suggestions" trim with the
default display limit keeps at most 6 of the three entries, deduplicates and
preserves order. -/
theorem C8_witness :
    ((trim_structured_results [sdA, sdB, sdA2] none
        (some ("specific".data)) 6).length ≤ 3 ∧
     List.Sublist (trim_structured_results [sdA, sdB, sdA2] none
        (some ("specific".data)) 6) [sdA, sdB, sdA2] ∧
     (trim_structured_results [sdA, sdB, sdA2] none
        (some ("specific".data)) 6).Pairwise
       (fun a b => entryIdent a ≠ entryIdent b)) ∧
    ((trim_structured_results [sdA, sdB, sdA2] none
        (some ("suggestions".data)) 6).length ≤
        Nat.max (if 6 = 0 then 6 else 6) 4 ∧
     (trim_structured_results [sdA, sdB, sdA2] none
        (some ("suggestions".data)) DEFAULT_DISPLAY_LIMIT).length ≤ 6 ∧
     List.Sublist (trim_structured_results [sdA, sdB, sdA2] none
        (some ("suggestions".data)) 6) [sdA, sdB, sdA2] ∧
     (trim_structured_results [sdA, sdB, sdA2] none
        (some ("suggestions".data)) 6).Pairwise
       (fun a b => entryIdent a ≠ entryIdent b)) :=
  C8_trim_structured_results [sdA, sdB, sdA2] 6
    (some ("suggestions".data)) (by decide)

/-- A response payload as `get_response` builds and caches it, reduced to
the fields the claims speak about.  `duplicate` is `none` when the dict has
no "duplicate" key (no code path that builds a fresh payload sets one). -/
structure Payload where
  response : Str
  structured_data : List Str
  language : Str
  source : Str
  duplicate : Option Bool
deriving DecidableEq

/-- One value of `self._recent_requests` (chat.py 301-305). -/
structure RecentEntry where
  query : Str
  timestamp : ℚ
  result : Payload
deriving DecidableEq

/-- The two process-wide caches consulted by `get_response`:
`_RESPONSE_CACHE` with `_RESPONSE_CACHE_TIME` (key → payload, store time)
and `self._recent_requests` (user id → entry).  Python dicts with unique
keys, modelled as association lists. -/
structure ChatCaches where
  responseCache : List (Str × (Payload × ℚ))
  recentRequests : List (Str × RecentEntry)
deriving DecidableEq

/-- Python dict lookup. -/
def alookup {β : Type} (k : Str) : List (Str × β) → Option β
  | [] => none
  | q :: t => if q.1 = k then some q.2 else alookup k t

/-- Python dict assignment (overwrite or append). -/
def aset {β : Type} : List (Str × β) → Str → β → List (Str × β)
  | [], k, v => [(k, v)]
  | q :: t, k, v => if q.1 = k then (k, v) :: t else q :: aset t k v

/-- Python `del d[k]` (keys are unique). -/
def aerase {β : Type} (k : Str) : List (Str × β) → List (Str × β)
  | [] => []
  | q :: t => if q.1 = k then t else q :: aerase k t

/-- `constants.RESPONSE_CACHE_TTL_SECONDS`. -/
def RESPONSE_CACHE_TTL_SECONDS : ℚ := 60

/-- `constants.DUPLICATE_WINDOW_SECONDS`. -/
def DUPLICATE_WINDOW_SECONDS : ℚ := 15

/-- chat.py `_normalized_query_key` (280-283):
`normalize_whitespace(text).lower()`. -/
def normalized_query_key (text : Str) : Str :=
  lowerStr (normalize_whitespace text)

/-- The `dedup_key` of `get_response` (chat.py 1772): the normalized key of
the stripped message, or "" when the stripped message is falsy. -/
def dedupKeyOf (msg : Str) : Str :=
  if pyStrip msg = [] then [] else normalized_query_key (pyStrip msg)

/-- chat.py `_replay_duplicate_response` (285-296): an entry for this user
whose stored query equals the key and whose age is within the duplicate
window is replayed with `duplicate=True` and `source` suffixed "_cached". -/
def replay_duplicate_response (recent : List (Str × RecentEntry)) (now : ℚ)
    (user_id key : Str) : Option Payload :=
  if key = [] then none
  else
    match alookup user_id recent with
    | none => none
    | some entry =>
        if entry.query = key ∧ now - entry.timestamp ≤ DUPLICATE_WINDOW_SECONDS
        then some { entry.result with duplicate := some true, source := entry.result.source ++ "_cached".data }
        else none

/-- chat.py `_cache_response` (298-305): record the user's last query, time
and result (no-op for a falsy key). -/
def cache_response (recent : List (Str × RecentEntry)) (user_id key : Str)
    (now : ℚ) (payload : Payload) : List (Str × RecentEntry) :=
  if key = [] then recent
  else aset recent user_id
    { query := key, timestamp := now, result := payload }

/-- chat.py `finalize_response` (1791-1797): write the payload into the
per-user duplicate cache and (for a truthy key) the global response
cache. -/
def finalize_response (caches : ChatCaches) (user_id key : Str) (now : ℚ)
    (payload : Payload) : ChatCaches :=
  { responseCache :=
      if key = [] then caches.responseCache
      else aset caches.responseCache key (payload, now),
    recentRequests := cache_response caches.recentRequests user_id key now payload }

/-- chat.py 1799-1800: the greeting word tuples, Thai then English. -/
def greeting_words : List Str :=
  [ "สวัสดี".data, "หวัดดี".data, "ดีจ้า".data, "สวัสดีค่ะ".data,
    "สวัสดีครับ".data, "hello".data, "hi".data, "hey".data,
    "greetings".data ]

/-- chat.py 1801: `trimmed_query and any(word in normalized_query for word
in greetings_th + greetings_en)`. -/
def isGreetingQuery (msg : Str) : Bool :=
  !(pyStrip msg).isEmpty &&
    greeting_words.any (fun w => isSub w (lowerStr (pyStrip msg)))

/-- The canned greeting payload built at chat.py 1813-1827: empty
structured_data, source "greeting", text chosen by detected language, no
"duplicate" key.  The two texts are the character-profile greetings (or the
hard-coded defaults) and are parameters of the model. -/
def greetingPayload (greeting_th greeting_en : Str) (language : Str) :
    Payload :=
  { response := if language = "th".data then greeting_th else greeting_en,
    structured_data := [], language := language,
    source := "greeting".data, duplicate := none }

/-- How one `get_response` call is answered: from the global response cache,
from the per-user duplicate cache, by the greeting short-circuit, or by
falling through to retrieval + the language model (`retrieval` is the only
outcome that runs any search or model call). -/
inductive GRStep where
  | globalCacheHit (p : Payload)
  | duplicateHit (p : Payload)
  | greeting (p : Payload)
  | retrieval
deriving DecidableEq

/-- chat.py 1786-1827, the part of `get_response` after the global-cache
check: the per-user duplicate replay, then the greeting short-circuit
(which finalizes its payload into both caches), else fall through to
retrieval. -/
def get_response_after_cache (caches : ChatCaches) (now : ℚ)
    (user_id msg greeting_th greeting_en : Str) : GRStep × ChatCaches :=
  match replay_duplicate_response caches.recentRequests now user_id
      (dedupKeyOf msg) with
  | some p => (.duplicateHit p, caches)
  | none =>
      if isGreetingQuery msg then
        (.greeting (greetingPayload greeting_th greeting_en
            (detect_language msg)),
          finalize_response caches user_id (dedupKeyOf msg) now
            (greetingPayload greeting_th greeting_en (detect_language msg)))
      else (.retrieval, caches)

/-- The dispatch prefix of `get_response` (chat.py 1767-1827): the global
response cache is consulted FIRST (1777-1783) - a fresh enough entry is
returned as a copy, unmodified; an expired entry is evicted; only then do
the duplicate replay and the greeting check run. -/
def get_response_dispatch (caches : ChatCaches) (now : ℚ)
    (user_id msg greeting_th greeting_en : Str) : GRStep × ChatCaches :=
  match alookup (dedupKeyOf msg) caches.responseCache with
  | some pt =>
      if now - pt.2 < RESPONSE_CACHE_TTL_SECONDS
      then (.globalCacheHit pt.1, caches)
      else get_response_after_cache
        { caches with
            responseCache := aerase (dedupKeyOf msg) caches.responseCache }
        now user_id msg greeting_th greeting_en
  | none => get_response_after_cache caches now user_id msg greeting_th greeting_en

/-- One whole `get_response` call.  Everything after the dispatch prefix
(intent classification, retrieval, the language model and its fallbacks) is
abstracted as `fresh`, the payload that work would produce; every exit of
that part of the source passes through `finalize_response` (chat.py 1813,
2017, 2037, 2056, 2070, 2081), which is modelled here. -/
def get_response_model (caches : ChatCaches) (now : ℚ)
    (user_id msg greeting_th greeting_en : Str) (fresh : Payload) :
    Payload × ChatCaches :=
  match get_response_dispatch caches now user_id msg greeting_th greeting_en with
  | (.globalCacheHit p, c) => (p, c)
  | (.duplicateHit p, c) => (p, c)
  | (.greeting p, c) => (p, c)
  | (.retrieval, c) =>
      (fresh, finalize_response c user_id (dedupKeyOf msg) now fresh)

/-- Fresh process state: both caches empty. -/
def freshCaches : ChatCaches := { responseCache := [], recentRequests := [] }

/-- The repeated query of the C2 run (no greeting word occurs in it). -/
def repeatQuery : Str := "แนะนำที่เที่ยว".data

/-- The payload the first C2 call computes (source "openai", no duplicate
key - as every code path that builds a fresh payload). -/
def firstPayload : Payload :=
  { response := "คำตอบ".data, structured_data := [], language := "th".data,
    source := "openai".data, duplicate := none }

/-- The cache state after the first C2 call: the payload sits in both caches
under the normalized key, stored at time 0. -/
def cachesAfterFirst : ChatCaches :=
  { responseCache := [(dedupKeyOf repeatQuery, (firstPayload, 0))],
    recentRequests := [("u".data,
      { query := dedupKeyOf repeatQuery, timestamp := 0,
        result := firstPayload })] }

/-- Claim C2 is violated by the code: the same user repeats the same query
10 seconds after the first call.  The first call stores its payload in BOTH
caches; on the second call `get_response` consults the GLOBAL response cache
(TTL 60s) before the per-user duplicate cache (window 15s), finds the entry
fresh and returns an unmodified copy: `duplicate` is absent (not true) and
`source` is "openai" (not "openai_cached").  The duplicate-marking path of
`_replay_duplicate_response` is unreachable because 15 < 60 and both caches
are always written together. -/
theorem C2_global_cache_shadows_duplicate_path :
    (get_response_model
        ((get_response_model freshCaches 0 "u".data repeatQuery [] []
            firstPayload).2)
        10 "u".data repeatQuery [] [] firstPayload).1 = firstPayload ∧
    firstPayload.duplicate ≠ some true ∧
    firstPayload.source = "openai".data ∧
    firstPayload.source ≠ "openai_cached".data := by
  have hstate : (get_response_model freshCaches 0 "u".data repeatQuery [] []
      firstPayload).2 = cachesAfterFirst := rfl
  have hlook : alookup (dedupKeyOf repeatQuery)
      cachesAfterFirst.responseCache = some (firstPayload, (0 : ℚ)) := rfl
  have httl : (10 : ℚ) - 0 < RESPONSE_CACHE_TTL_SECONDS := by
    norm_num [RESPONSE_CACHE_TTL_SECONDS]
  refine ⟨?_, by decide, rfl, by decide⟩
  rw [hstate]
  unfold get_response_model get_response_dispatch
  rw [hlook]
  dsimp only
  rw [if_pos httl]

/-- Claim C9: when the stripped query is non-empty and its lowercased text
contains any greeting word anywhere (also inside a longer word), and neither
cache already answers this key, `get_response` short-circuits with the
canned greeting payload: source "greeting", empty structured_data, and the
dispatch outcome is the greeting branch - not `retrieval`, so no search and
no model call happen for the request. -/
theorem C9_greeting_short_circuit (caches : ChatCaches) (now : ℚ)
    (user msg greeting_th greeting_en : Str)
    (hgr : isGreetingQuery msg = true)
    (hglobal : alookup (dedupKeyOf msg) caches.responseCache = none)
    (hdup : replay_duplicate_response caches.recentRequests now user
      (dedupKeyOf msg) = none) :
    (get_response_dispatch caches now user msg greeting_th greeting_en).1 =
      .greeting (greetingPayload greeting_th greeting_en
        (detect_language msg)) ∧
    (greetingPayload greeting_th greeting_en
      (detect_language msg)).source = "greeting".data ∧
    (greetingPayload greeting_th greeting_en
      (detect_language msg)).structured_data = [] := by
  refine ⟨?_, rfl, rfl⟩
  unfold get_response_dispatch get_response_after_cache
  rw [hglobal, hdup]
  dsimp only
  rw [if_pos hgr]

/-- Witness for C9 at a concrete input: on a fresh process state the query
"hiking trails" - which contains the greeting word "hi" inside "hiking" -
is answered by the greeting branch with source "greeting" and no
structured data. -/
theorem C9_witness :
    (get_response_dispatch freshCaches 0 "u".data "hiking trails".data
        "สวัสดีค่ะ".data "Hello!".data).1 =
      .greeting (greetingPayload "สวัสดีค่ะ".data "Hello!".data
        (detect_language "hiking trails".data)) ∧
    (greetingPayload "สวัสดีค่ะ".data "Hello!".data
      (detect_language "hiking trails".data)).source = "greeting".data ∧
    (greetingPayload "สวัสดีค่ะ".data "Hello!".data
      (detect_language "hiking trails".data)).structured_data = [] :=
  C9_greeting_short_circuit freshCaches 0 "u".data "hiking trails".data
    "สวัสดีค่ะ".data "Hello!".data (by decide) rfl rfl

/-- Claim C7: whenever the database layer fails (SQLAlchemyError, the
`.error` case), `search_places`, `get_attractions_by_type` and
`search_places_near_location` all return the empty list; being total Lean
functions they propagate no exception. -/
theorem C7_db_error_returns_empty (e : DBErr) (kw : Str) (lim : Nat)
    (aty : Option Str) (cat : Str) (hav : ℚ → ℚ → ℚ → ℚ → ℚ)
    (clat clng radius : ℚ) :
    search_places (.error e) kw lim aty = [] ∧
    get_attractions_by_type (.error e) cat lim = [] ∧
    search_places_near_location hav (.error e) kw clat clng radius lim = [] :=
  ⟨rfl, rfl, rfl⟩

/-- The haversine expression of db.py lines 751-759 is exactly 0 when the row
coordinates equal the center: the acos argument collapses to
cos²(lat) + sin²(lat) = 1 and 6371·acos(1) = 0.  (At center (0,0) every
intermediate is also exact in SQL float arithmetic: radians(0)=0, cos(0)=1,
sin(0)=0, acos(1)=0.) -/
theorem haversine_center_zero (lat lng : ℝ) :
    6371 * Real.arccos (Real.cos lat * Real.cos lat * Real.cos (lng - lng) +
      Real.sin lat * Real.sin lat) = 0 := by
  have h1 : Real.cos (lng - lng) = 1 := by rw [sub_self, Real.cos_zero]
  have h2 : Real.cos lat * Real.cos lat * Real.cos (lng - lng) +
      Real.sin lat * Real.sin lat = 1 := by
    rw [h1, mul_one]
    linear_combination Real.sin_sq_add_cos_sq lat
  rw [h2, Real.arccos_one, mul_zero]

/-- The distance column of the counterexample query below: the only table row
sits exactly at the query center, where the haversine expression is 0
(`haversine_center_zero`). -/
def havAtCenter : ℚ → ℚ → ℚ → ℚ → ℚ := fun _ _ _ _ => 0

/-- A restaurant located exactly at the query center (0, 0). -/
def centerPlace : Place :=
  { id := 1, name := "ร้านอาหารกลางเมือง".data,
    category := some ("ร้านอาหาร".data), description := none, address := none,
    attraction_type := some ("restaurant".data), latitude := some 0,
    longitude := some 0 }

/-- Counterexample to claim C6 as stated: a place at great-circle distance
exactly 0 from the center (coordinates equal to the center, distance pinned
by `haversine_center_zero`) is returned, but its `_distance_km` field is None
rather than the distance rounded to 2 decimals (0.0), because the source
guards the field with Python truthiness: `round(float(distance), 2) if
distance else None`. -/
theorem C6_counterexample :
    search_places_near_location havAtCenter (.ok [centerPlace]) "ร้าน".data
        0 0 2 5 = [(centerPlace, none)] ∧
    (none : Option ℚ) ≠ some (round2 0) := by
  refine ⟨by decide, by decide⟩

/-- Claim C6 as amended: every place returned by
`search_places_near_location` has non-null coordinates, its haversine
distance from the center is at most `radius_km`, the list is ordered by
non-decreasing distance, and `_distance_km` is the distance rounded to 2
decimals - except that a place at distance exactly 0 carries None (the
Python-truthiness guard exhibited by `C6_counterexample`). -/
theorem C6_near_location_amended (hav : ℚ → ℚ → ℚ → ℚ → ℚ)
    (table : List Place) (kw : Str) (clat clng radius : ℚ) (lim : Nat) :
    (∀ x ∈ search_places_near_location hav (.ok table) kw clat clng radius lim,
      x.1.latitude.isSome = true ∧ x.1.longitude.isSome = true ∧
      nearDistance hav clat clng x.1 ≤ radius ∧
      x.2 = (if nearDistance hav clat clng x.1 = 0 then none
             else some (round2 (nearDistance hav clat clng x.1)))) ∧
    (search_places_near_location hav (.ok table) kw clat clng radius
        lim).Pairwise
      (fun a b => nearDistance hav clat clng a.1 ≤ nearDistance hav clat clng b.1) := by
  constructor
  · intro x hx
    simp only [search_places_near_location] at hx
    obtain ⟨p, hp, rfl⟩ := List.mem_map.mp hx
    have hsorted : p ∈ List.insertionSort
        (fun a b => nearDistance hav clat clng a ≤ nearDistance hav clat clng b)
        (table.filter (fun p =>
          p.latitude.isSome && p.longitude.isSome &&
          placeMatchesKeyword kw p &&
          decide (nearDistance hav clat clng p ≤ radius))) :=
      List.mem_of_mem_take hp
    have hfil := (List.perm_insertionSort _ _).mem_iff.mp hsorted
    have hpred := (List.mem_filter.mp hfil).2
    simp only [Bool.and_eq_true, decide_eq_true_eq] at hpred
    exact ⟨hpred.1.1.1, hpred.1.1.2, hpred.2, rfl⟩
  · simp only [search_places_near_location]
    apply List.pairwise_map.mpr
    have htotal : IsTotal Place
        (fun a b => nearDistance hav clat clng a ≤ nearDistance hav clat clng b) :=
      ⟨fun a b => le_total _ _⟩
    have htrans : IsTrans Place
        (fun a b => nearDistance hav clat clng a ≤ nearDistance hav clat clng b) :=
      ⟨fun _ _ _ hab hbc => le_trans hab hbc⟩
    exact List.Pairwise.sublist (List.take_sublist _ _)
      (@List.sorted_insertionSort _ _ _ htotal htrans _)

/-- The distance column of the witness query: every row is 1 km from the
center. -/
def havOneAway : ℚ → ℚ → ℚ → ℚ → ℚ := fun _ _ _ _ => 1

/-- A restaurant 1 km away from center (13, 100). -/
def nearPlace : Place :=
  { id := 2, name := "ร้านอาหารริมน้ำ".data,
    category := some ("ร้านอาหาร".data), description := none, address := none,
    attraction_type := some ("restaurant".data), latitude := some 13,
    longitude := some 100 }

/-- Witness for C6 at a concrete input: the single returned row has non-null
coordinates, lies within the 2 km radius, and carries `_distance_km` =
round2(1) = 1. -/
theorem C6_witness :
    nearPlace.latitude.isSome = true ∧ nearPlace.longitude.isSome = true ∧
    nearDistance havOneAway 13 100 nearPlace ≤ 2 ∧
    (some (1 : ℚ) : Option ℚ) =
      (if nearDistance havOneAway 13 100 nearPlace = 0 then none
       else some (round2 (nearDistance havOneAway 13 100 nearPlace))) := by
  have heval : search_places_near_location havOneAway (Except.ok [nearPlace])
      "ร้าน".data 13 100 2 5 = [(nearPlace, some (round2 1))] := rfl
  have h2 : round2 (1 : ℚ) = 1 := by with_unfolding_all rfl
  have hmem : (nearPlace, some (1 : ℚ)) ∈ search_places_near_location
      havOneAway (Except.ok [nearPlace]) "ร้าน".data 13 100 2 5 := by
    rw [heval, h2]
    exact List.mem_singleton.mpr rfl
  exact (C6_near_location_amended havOneAway [nearPlace] "ร้าน".data 13 100 2 5).1
    (nearPlace, some 1) hmem
